import Mathlib

/-!
Shallow embedding of the Health & Fitness Club Management System
(src/models/models.py, src/app/main.py, src/app/db.py, src/app/seed.py).

Timestamps and dates are modelled as `Int` (naive wall-clock instants are
order-isomorphic to integers); float-valued measurements are modelled as
`Int` since no claim computes with them.  Database rows live in lists held
by a `DBState`; surrogate keys are `Nat`.  Each operation of the CLI is a
pure function from a state (plus the already-prompted, type-checked scalar
inputs) to `Except err DBState`: an `.error` result models a rejected
operation whose transaction is rolled back (the caller keeps the old
state), an `.ok st` result models the committed transaction.
-/

namespace Club

/-- Row of table `member` (models.py `Member`). -/
structure Member where
  id : Nat
  full_name : String
  email : String
  phone : Option String
deriving Repr, DecidableEq

/-- Row of table `trainer` (models.py `Trainer`). -/
structure Trainer where
  id : Nat
  full_name : String
  email : String
deriving Repr, DecidableEq

/-- Row of table `room` (models.py `Room`). -/
structure Room where
  id : Nat
  name : String
  capacity : Nat
deriving Repr, DecidableEq

/-- Row of table `fitnessclass` (models.py `FitnessClass`). -/
structure FitnessClass where
  id : Nat
  title : String
  description : Option String
  start_time : Int
  end_time : Int
  max_capacity : Nat
  trainer_id : Nat
  room_id : Nat
deriving Repr, DecidableEq

/-- Row of table `classregistration` (models.py `ClassRegistration`). -/
structure ClassRegistration where
  id : Nat
  member_id : Nat
  class_id : Nat
  registered_at : Int
deriving Repr, DecidableEq

/-- Row of table `ptsession` (models.py `PTSession`). -/
structure PTSession where
  id : Nat
  member_id : Nat
  trainer_id : Nat
  room_id : Nat
  start_time : Int
  end_time : Int
  status : String
deriving Repr, DecidableEq

/-- Row of table `fitnessgoal` (models.py `FitnessGoal`). -/
structure FitnessGoal where
  id : Nat
  member_id : Nat
  goal_type : String
  target_value : Int
  start_date : Int
  target_date : Int
  is_active : Bool
deriving Repr, DecidableEq

/-- Row of table `healthmetric` (models.py `HealthMetric`). -/
structure HealthMetric where
  id : Nat
  member_id : Nat
  recorded_at : Int
  weight_kg : Option Int
  heart_rate_bpm : Option Int
  body_fat_percent : Option Int
deriving Repr, DecidableEq

/-- Row of table `traineravailability` (models.py `TrainerAvailability`). -/
structure TrainerAvailability where
  id : Nat
  trainer_id : Nat
  start_time : Int
  end_time : Int
deriving Repr, DecidableEq

/-- The persisted database state: one list per table used by the claims. -/
structure DBState where
  members : List Member
  trainers : List Trainer
  rooms : List Room
  classes : List FitnessClass
  sessions : List PTSession
  registrations : List ClassRegistration
  goals : List FitnessGoal
  metrics : List HealthMetric
  availability : List TrainerAvailability
deriving Repr, DecidableEq

/-- `session.get(Member, member_id)` — primary-key lookup. -/
def findMember (st : DBState) (mid : Nat) : Option Member :=
  st.members.find? fun m => m.id == mid

/-- `session.get(Trainer, trainer_id)` — primary-key lookup. -/
def findTrainer (st : DBState) (tid : Nat) : Option Trainer :=
  st.trainers.find? fun t => t.id == tid

/-- `session.get(Room, room_id)` — primary-key lookup. -/
def findRoom (st : DBState) (rid : Nat) : Option Room :=
  st.rooms.find? fun r => r.id == rid

/-- `session.get(FitnessClass, class_id)` — primary-key lookup. -/
def findClass (st : DBState) (cid : Nat) : Option FitnessClass :=
  st.classes.find? fun c => c.id == cid

/-- Python truthiness of an optional integer id, as used by
`if exclude_class_id:` in main.py: `None` and `0` are falsy. -/
def truthyId : Option Nat → Bool
  | none => false
  | some n => n != 0

/-- main.py `trainer_has_conflict` (lines 112-136): true when some fitness
class or some PT session of the trainer overlaps `[s, e)` under half-open
semantics (`existing.start < e` and `existing.end > s`), skipping the
optionally excluded class/session id when that id is truthy. -/
def trainer_has_conflict (st : DBState) (trainer_id : Nat) (s e : Int)
    (exclude_class_id exclude_session_id : Option Nat) : Bool :=
  (st.classes.any fun c =>
    c.trainer_id == trainer_id && decide (c.start_time < e) && decide (c.end_time > s)
      && (!truthyId exclude_class_id || c.id != exclude_class_id.getD 0))
  || (st.sessions.any fun p =>
    p.trainer_id == trainer_id && decide (p.start_time < e) && decide (p.end_time > s)
      && (!truthyId exclude_session_id || p.id != exclude_session_id.getD 0))

/-- main.py `room_has_conflict` (lines 139-163): same overlap test keyed on
the room instead of the trainer. -/
def room_has_conflict (st : DBState) (room_id : Nat) (s e : Int)
    (exclude_class_id exclude_session_id : Option Nat) : Bool :=
  (st.classes.any fun c =>
    c.room_id == room_id && decide (c.start_time < e) && decide (c.end_time > s)
      && (!truthyId exclude_class_id || c.id != exclude_class_id.getD 0))
  || (st.sessions.any fun p =>
    p.room_id == room_id && decide (p.start_time < e) && decide (p.end_time > s)
      && (!truthyId exclude_session_id || p.id != exclude_session_id.getD 0))

/-- Rejection reasons surfaced by the class-registration path
(main.py `register_for_class` and the db.py trigger). -/
inductive RegError
  | notFound
  | alreadyRegistered
  | classNotExists
  | classFull
deriving Repr, DecidableEq

/-- `COUNT(*) FROM classregistration WHERE class_id = cid`. -/
def regCount (regs : List ClassRegistration) (cid : Nat) : Nat :=
  (regs.filter fun r => r.class_id == cid).length

/-- db.py `check_class_capacity` (lines 82-107): the BEFORE INSERT trigger
body.  Recomputes the registration count for the target class; raises
`Class does not exist` when the capacity lookup finds no class, raises
`Class is full` when count ≥ capacity, and otherwise lets the row through. -/
def check_class_capacity (st : DBState) (cid : Nat) : Except RegError Unit :=
  match findClass st cid with
  | none => .error .classNotExists
  | some c =>
      if regCount st.registrations cid ≥ c.max_capacity then .error .classFull
      else .ok ()

/-- An INSERT on `classregistration` as the database executes it: the
BEFORE INSERT trigger `trg_check_class_capacity` runs `check_class_capacity`
and aborts the statement on error; otherwise the row is appended. -/
def insertRegistration (st : DBState) (reg : ClassRegistration) :
    Except RegError DBState :=
  match check_class_capacity st reg.class_id with
  | .error err => .error err
  | .ok _ => .ok { st with registrations := st.registrations ++ [reg] }

/-- main.py `register_for_class` (lines 273-308): look up member and class
(reject with `Member or class not found` when either is absent), reject a
duplicate `(member_id, class_id)` pair before attempting any insert, then
insert through the trigger-guarded path.  `rid`/`now` stand for the
database-assigned key and `registered_at` server default. -/
def register_for_class (st : DBState) (member_id class_id rid : Nat)
    (now : Int) : Except RegError DBState :=
  if (findMember st member_id).isNone || (findClass st class_id).isNone then
    .error .notFound
  else if st.registrations.any
      (fun r => r.member_id == member_id && r.class_id == class_id) then
    .error .alreadyRegistered
  else
    insertRegistration st ⟨rid, member_id, class_id, now⟩

/-- Rejection reasons of the goal-update path (main.py
`update_profile_and_goal`). -/
inductive GoalError
  | memberNotFound
  | invalidDateRange
deriving Repr, DecidableEq

/-- The goal portion of main.py `update_profile_and_goal` (lines 200-245):
after the member lookup, reject when `target_date < start_date` (rolling
back, so no write is kept), otherwise deactivate every goal of the member
and append the new goal with `is_active = True`, all committed as one
transaction.  `gid` stands for the database-assigned goal key. -/
def set_active_goal (st : DBState) (member_id gid : Nat) (goal_type : String)
    (target_value start_date target_date : Int) : Except GoalError DBState :=
  if (findMember st member_id).isNone then .error .memberNotFound
  else if target_date < start_date then .error .invalidDateRange
  else .ok { st with goals :=
    (st.goals.map fun g =>
      if g.member_id == member_id then { g with is_active := false } else g)
    ++ [⟨gid, member_id, goal_type, target_value, start_date, target_date, true⟩] }

/-- seed.py `seed_data`, goals section (lines 99-113): for every member in
order, twelve goals `Goal 1` .. `Goal 12`, each with
`start_date = today - (120 - j*5)`, `target_date = start_date + 60` and
`is_active = True`.  Ids are assigned sequentially from `baseId` as the
database would. -/
def seed_goals (members : List Member) (today : Int) (baseId : Nat) :
    List FitnessGoal :=
  (members.enum.map fun im =>
    (List.range 12).map fun j =>
      { id := baseId + 12 * im.fst + j
        member_id := im.snd.id
        goal_type := "Goal " ++ toString (j + 1)
        target_value := 70 + (j : Int)
        start_date := today - (120 - (j : Int) * 5)
        target_date := today - (120 - (j : Int) * 5) + 60
        is_active := true }).flatten

/-- One fold step of `pickBest`: keep the earlier row unless the later row
is strictly better under `better`. -/
def pickStep {α : Type} (better : α → α → Bool) (acc : Option α) (x : α) :
    Option α :=
  match acc with
  | none => some x
  | some b => if better x b then some x else some b

/-- First row of an ordered query: fold that keeps the earlier row unless a
later row is strictly better under `better` (so ties keep the first row in
table order, and with a total strict order the unique maximum wins). -/
def pickBest {α : Type} (better : α → α → Bool) (l : List α) : Option α :=
  l.foldl (pickStep better) none

/-- `ORDER BY target_date DESC, goal_id DESC`: `a` sorts strictly before
`b`. -/
def goalOrderDash (a b : FitnessGoal) : Bool :=
  decide (b.target_date < a.target_date)
    || (a.target_date == b.target_date && b.id < a.id)

/-- `ORDER BY goal_id DESC`: `a` sorts strictly before `b`. -/
def goalOrderLookup (a b : FitnessGoal) : Bool :=
  b.id < a.id

/-- `ORDER BY recorded_at DESC, metric_id DESC`: `a` sorts strictly before
`b`. -/
def metricOrderDash (a b : HealthMetric) : Bool :=
  decide (b.recorded_at < a.recorded_at)
    || (a.recorded_at == b.recorded_at && b.id < a.id)

/-- `ORDER BY recorded_at DESC`: `a` sorts strictly before `b`.  SQL leaves
the order of ties unspecified; the determinization here keeps the first row
in table order among ties. -/
def metricOrderLookup (a b : HealthMetric) : Bool :=
  decide (b.recorded_at < a.recorded_at)

/-- Active goals of a member in table order. -/
def activeGoals (st : DBState) (mid : Nat) : List FitnessGoal :=
  st.goals.filter fun g => g.member_id == mid && g.is_active

/-- Metrics of a member in table order. -/
def memberMetrics (st : DBState) (mid : Nat) : List HealthMetric :=
  st.metrics.filter fun m => m.member_id == mid

/-- db.py `member_dashboard_view`, goal lateral join (lines 67-73): the
active goal of the member that is first under
`ORDER BY target_date DESC, goal_id DESC LIMIT 1`. -/
def dashboardGoal (st : DBState) (mid : Nat) : Option FitnessGoal :=
  pickBest goalOrderDash (activeGoals st mid)

/-- db.py `member_dashboard_view`, metric lateral join (lines 74-80): the
metric of the member that is first under
`ORDER BY recorded_at DESC, metric_id DESC LIMIT 1`. -/
def dashboardMetric (st : DBState) (mid : Nat) : Option HealthMetric :=
  pickBest metricOrderDash (memberMetrics st mid)

/-- main.py `lookup_member_info`, goal query (lines 404-408): first active
goal of the member under `ORDER BY goal_id DESC` (`session.scalar` keeps the
first row). -/
def lookupGoal (st : DBState) (mid : Nat) : Option FitnessGoal :=
  pickBest goalOrderLookup (activeGoals st mid)

/-- main.py `lookup_member_info`, metric query (lines 409-413): first metric
of the member under `ORDER BY recorded_at DESC` alone (no id tie-break). -/
def lookupMetric (st : DBState) (mid : Nat) : Option HealthMetric :=
  pickBest metricOrderLookup (memberMetrics st mid)

/-- One row of `member_dashboard_view` as selected by
main.py `view_member_dashboard` (lines 632-643). -/
structure DashboardRow where
  member_id : Nat
  full_name : String
  email : String
  phone : Option String
  goal_type : Option String
  target_value : Option Int
  target_date : Option Int
  latest_metric_at : Option Int
  weight_kg : Option Int
  heart_rate_bpm : Option Int
  body_fat_percent : Option Int
deriving Repr, DecidableEq

/-- db.py `member_dashboard_view` (lines 52-81) restricted to one member id
(the `WHERE member_id = :member_id ... .first()` of
`view_member_dashboard`): the member row left-joined to its latest active
goal and latest metric, both optional. -/
def member_dashboard_view (st : DBState) (mid : Nat) : Option DashboardRow :=
  match findMember st mid with
  | none => none
  | some m =>
      let goal := dashboardGoal st mid
      let metric := dashboardMetric st mid
      some
        { member_id := m.id
          full_name := m.full_name
          email := m.email
          phone := m.phone
          goal_type := goal.map (·.goal_type)
          target_value := goal.map (·.target_value)
          target_date := goal.map (·.target_date)
          latest_metric_at := metric.map (·.recorded_at)
          weight_kg := metric.bind (·.weight_kg)
          heart_rate_bpm := metric.bind (·.heart_rate_bpm)
          body_fat_percent := metric.bind (·.body_fat_percent) }

/-- Rejection reasons of the booking validators (main.py
`manage_fitness_class` / `schedule_pt_session`). -/
inductive BookError
  | invalidWindow
  | notFound
  | capacityExceedsRoom
  | trainerConflict
  | roomConflict
  | classNotFound
deriving Repr, DecidableEq

/-- main.py `manage_fitness_class`, create path (lines 435-476): checks in
source order — window (`end_time <= start_time`), trainer and room
existence, `max_capacity > room.capacity`, trainer conflict, room conflict
(no exclusions) — then inserts the class.  `cid` stands for the
database-assigned key. -/
def create_fitness_class (st : DBState) (cid : Nat) (title : String)
    (description : Option String) (trainer_id room_id : Nat) (s e : Int)
    (max_capacity : Nat) : Except BookError DBState :=
  if e ≤ s then .error .invalidWindow
  else
    match findTrainer st trainer_id, findRoom st room_id with
    | none, _ => .error .notFound
    | some _, none => .error .notFound
    | some _, some room =>
        if max_capacity > room.capacity then .error .capacityExceedsRoom
        else if trainer_has_conflict st trainer_id s e none none then
          .error .trainerConflict
        else if room_has_conflict st room_id s e none none then
          .error .roomConflict
        else .ok { st with classes := st.classes ++
          [⟨cid, title, description, s, e, max_capacity, trainer_id, room_id⟩] }

/-- main.py `manage_fitness_class`, update path (lines 478-540): after the
class lookup, checks in source order — trainer and room existence,
`max_capacity > room.capacity`, window (`end_time <= start_time`), trainer
conflict, room conflict, both excluding the class being updated — then
writes the proposed values onto the row.  The optional title/description
follow the CLI semantics (`if new_title:` keeps the old title on blank
input; the int/datetime prompts already defaulted the other proposed values
to the current ones). -/
def update_fitness_class (st : DBState) (class_id : Nat)
    (new_title new_description : Option String) (trainer_id room_id : Nat)
    (s e : Int) (max_capacity : Nat) : Except BookError DBState :=
  match findClass st class_id with
  | none => .error .classNotFound
  | some fc =>
      match findTrainer st trainer_id, findRoom st room_id with
      | none, _ => .error .notFound
      | some _, none => .error .notFound
      | some _, some room =>
          if max_capacity > room.capacity then .error .capacityExceedsRoom
          else if e ≤ s then .error .invalidWindow
          else if trainer_has_conflict st trainer_id s e (some fc.id) none then
            .error .trainerConflict
          else if room_has_conflict st room_id s e (some fc.id) none then
            .error .roomConflict
          else .ok { st with classes := st.classes.map fun c =>
            if c.id == class_id then
              { c with
                title := new_title.getD c.title
                description :=
                  match new_description with
                  | some d => some d
                  | none => c.description
                trainer_id := trainer_id
                room_id := room_id
                start_time := s
                end_time := e
                max_capacity := max_capacity }
            else c }

/-- main.py `schedule_pt_session` (lines 543-580): window check, then
member/trainer/room existence, then trainer and room conflict checks (no
exclusions), then the insert with status `BOOKED`.  `sid` stands for the
database-assigned key. -/
def schedule_pt_session (st : DBState) (sid member_id trainer_id room_id : Nat)
    (s e : Int) : Except BookError DBState :=
  if e ≤ s then .error .invalidWindow
  else if (findMember st member_id).isNone || (findTrainer st trainer_id).isNone
      || (findRoom st room_id).isNone then .error .notFound
  else if trainer_has_conflict st trainer_id s e none none then
    .error .trainerConflict
  else if room_has_conflict st room_id s e none none then
    .error .roomConflict
  else .ok { st with sessions := st.sessions ++
    [⟨sid, member_id, trainer_id, room_id, s, e, "BOOKED"⟩] }

/-- Rejection reasons of main.py `set_trainer_availability`. -/
inductive AvailError
  | invalidWindow
  | trainerNotFound
  | overlapping
deriving Repr, DecidableEq

/-- main.py `set_trainer_availability` (lines 314-347): reject
`end_time <= start_time`, reject an unknown trainer, reject when the slot
overlaps an existing availability slot of the same trainer
(`existing.start < e` and `existing.end > s`), otherwise insert the slot.
Only the `traineravailability` table is consulted for overlap.  `aid`
stands for the database-assigned key. -/
def set_trainer_availability (st : DBState) (aid trainer_id : Nat)
    (s e : Int) : Except AvailError DBState :=
  if e ≤ s then .error .invalidWindow
  else if (findTrainer st trainer_id).isNone then .error .trainerNotFound
  else if st.availability.any (fun a =>
      a.trainer_id == trainer_id && decide (a.start_time < e)
        && decide (a.end_time > s)) then .error .overlapping
  else .ok { st with availability :=
    st.availability ++ [⟨aid, trainer_id, s, e⟩] }

/-- Capacity invariant of the spec: no class has more registrations than
its `max_capacity`. -/
def capacityInvariant (st : DBState) : Prop :=
  ∀ c ∈ st.classes, regCount st.registrations c.id ≤ c.max_capacity

/-- Active-goal invariant of the spec: every member has at most one active
goal among the given rows. -/
def atMostOneActivePerMember (goals : List FitnessGoal) : Prop :=
  ∀ mid : Nat,
    (goals.filter fun g => g.member_id == mid && g.is_active).length ≤ 1

/-! Concrete states used by witnesses and counterexamples. -/

/-- A concrete member row. -/
def demoMember : Member := ⟨1, "Alice Fit", "alice@club.test", none⟩

/-- A concrete trainer row. -/
def demoTrainer : Trainer := ⟨1, "Tracy Coach", "tracy@club.test"⟩

/-- A concrete room row with capacity 5. -/
def demoRoom : Room := ⟨1, "Studio 1", 5⟩

/-- A concrete class booked by trainer 1 in room 1 over `[10, 11)` with
`max_capacity = 2`. -/
def demoClass : FitnessClass := ⟨1, "Morning Yoga", none, 10, 11, 2, 1, 1⟩

/-- A concrete state: one member, one trainer, one room, one class, nothing
else. -/
def demoState : DBState :=
  { members := [demoMember]
    trainers := [demoTrainer]
    rooms := [demoRoom]
    classes := [demoClass]
    sessions := []
    registrations := []
    goals := []
    metrics := []
    availability := [] }

/-- Active goal with the lower id but the later target date. -/
def goalLaterDate : FitnessGoal := ⟨1, 1, "Weight loss", 70, 0, 100, true⟩

/-- Active goal with the higher id but the earlier target date. -/
def goalHigherId : FitnessGoal := ⟨2, 1, "Cardio", 60, 0, 50, true⟩

/-- State whose member 1 has two active goals whose id order disagrees with
their target-date order. -/
def mismatchState : DBState := { demoState with goals := [goalLaterDate, goalHigherId] }

/-- State whose member 1 has one existing active goal. -/
def oneGoalState : DBState := { demoState with goals := [⟨1, 1, "Bulk", 80, 0, 30, true⟩] }

/-- State whose member 1 has one active goal and two metrics with distinct
`recorded_at`. -/
def agreementState : DBState :=
  { demoState with
    goals := [⟨1, 1, "Bulk", 80, 0, 30, true⟩]
    metrics := [⟨1, 1, 5, some 80, some 70, none⟩, ⟨2, 1, 9, some 79, some 68, none⟩] }

/-- State with an existing registration of member 1 in class 1. -/
def registeredState : DBState :=
  { demoState with registrations := [⟨1, 1, 1, 0⟩] }

/-! Helper lemmas. -/

/-- The exclusion filter of the conflict checkers skips exactly the named
record, provided the named id is a real (positive) key: Python truthiness
conflates `exclude_id = 0` with `None`, but 0 is never a key. -/
theorem excludeCond_iff (ex : Option Nat) (i : Nat)
    (h : ∀ k, ex = some k → 0 < k) :
    ((!truthyId ex || i != ex.getD 0) = true) ↔ ex ≠ some i := by
  cases ex with
  | none => simp [truthyId]
  | some k =>
      have hk : 0 < k := h k rfl
      have hk0 : (k != 0) = true := by simpa using Nat.pos_iff_ne_zero.mp hk
      simp [truthyId, hk0]
      omega

/-- Appending one registration row bumps the count of its class by one and
leaves every other class count unchanged. -/
theorem regCount_append (regs : List ClassRegistration)
    (reg : ClassRegistration) (cid : Nat) :
    regCount (regs ++ [reg]) cid =
      regCount regs cid + (if reg.class_id = cid then 1 else 0) := by
  simp only [regCount, List.filter_append, List.length_append]
  by_cases h : reg.class_id = cid
  · simp [List.filter, h]
  · have hb : (reg.class_id == cid) = false := by simpa using h
    simp [List.filter, hb, h]

/-- Fold-step congruence: two orderings that agree on all rows drawn from a
set `P` produce the same first row, for any accumulator drawn from `P`. -/
theorem foldl_pickStep_congr {α : Type} (b1 b2 : α → α → Bool) (P : α → Prop)
    (h : ∀ x y, P x → P y → b1 x y = b2 x y) :
    ∀ (l : List α) (acc : Option α), (∀ x ∈ l, P x) →
      (∀ a, acc = some a → P a) →
      l.foldl (pickStep b1) acc = l.foldl (pickStep b2) acc := by
  intro l
  induction l with
  | nil => intro acc _ _; rfl
  | cons x xs ih =>
      intro acc hl hacc
      have hx : P x := hl x (List.mem_cons_self x xs)
      have hstep : pickStep b1 acc x = pickStep b2 acc x := by
        cases acc with
        | none => rfl
        | some a => simp [pickStep, h x a hx (hacc a rfl)]
      rw [List.foldl_cons, List.foldl_cons, hstep]
      refine ih (pickStep b2 acc x) (fun y hy => hl y (List.mem_cons_of_mem x hy)) ?_
      intro a ha
      cases acc with
      | none =>
          simp only [pickStep] at ha
          cases ha
          exact hx
      | some b =>
          simp only [pickStep] at ha
          by_cases hb : b2 x b = true
          · rw [if_pos hb] at ha
            cases ha
            exact hx
          · rw [if_neg hb] at ha
            exact hacc a ha

/-- `pickBest` congruence: two orderings that agree pointwise on the list
pick the same first row. -/
theorem pickBest_congr {α : Type} (b1 b2 : α → α → Bool) (l : List α)
    (h : ∀ x ∈ l, ∀ y ∈ l, b1 x y = b2 x y) :
    pickBest b1 l = pickBest b2 l :=
  foldl_pickStep_congr b1 b2 (· ∈ l) (fun x y hx hy => h x hx y hy) l none
    (fun _ hx => hx) (fun _ ha => by cases ha)

/-! Claim theorems. -/

/-- Claim C1: for every resource (trainer or room) and proposed window
`[s, e)`, the conflict check returns true iff some existing class booking or
PT-session booking of that resource overlaps it half-openly
(`s < existing.end` and `existing.start < e`), excluding the optionally
named record; touching windows are not conflicts and either table alone
suffices.  The hypotheses record that excluded ids, when named, are real
(positive) keys. -/
theorem conflict_check_iff (st : DBState) (rid : Nat) (s e : Int)
    (exC exS : Option Nat)
    (hC : ∀ k, exC = some k → 0 < k) (hS : ∀ k, exS = some k → 0 < k) :
    (trainer_has_conflict st rid s e exC exS = true ↔
      ((∃ c ∈ st.classes, c.trainer_id = rid ∧ s < c.end_time ∧
          c.start_time < e ∧ exC ≠ some c.id) ∨
        ∃ p ∈ st.sessions, p.trainer_id = rid ∧ s < p.end_time ∧
          p.start_time < e ∧ exS ≠ some p.id)) ∧
    (room_has_conflict st rid s e exC exS = true ↔
      ((∃ c ∈ st.classes, c.room_id = rid ∧ s < c.end_time ∧
          c.start_time < e ∧ exC ≠ some c.id) ∨
        ∃ p ∈ st.sessions, p.room_id = rid ∧ s < p.end_time ∧
          p.start_time < e ∧ exS ≠ some p.id)) := by
  have hCiff := fun i => excludeCond_iff exC i hC
  have hSiff := fun i => excludeCond_iff exS i hS
  constructor <;>
  · simp only [trainer_has_conflict, room_has_conflict, Bool.or_eq_true,
      List.any_eq_true, Bool.and_eq_true, decide_eq_true_eq, beq_iff_eq,
      hCiff, hSiff]
    constructor
    · rintro (⟨c, hc, ⟨⟨ht, h1⟩, h2⟩, hex⟩ | ⟨p, hp, ⟨⟨ht, h1⟩, h2⟩, hex⟩)
      · exact Or.inl ⟨c, hc, ht, h2, h1, hex⟩
      · exact Or.inr ⟨p, hp, ht, h2, h1, hex⟩
    · rintro (⟨c, hc, ht, h2, h1, hex⟩ | ⟨p, hp, ht, h2, h1, hex⟩)
      · exact Or.inl ⟨c, hc, ⟨⟨ht, h1⟩, h2⟩, hex⟩
      · exact Or.inr ⟨p, hp, ⟨⟨ht, h1⟩, h2⟩, hex⟩

/-- Claim C1 witness: the characterization at the concrete state with one
class over `[10, 11)` and the touching proposed window `[11, 12)`. -/
theorem conflict_check_iff_witness :
    (trainer_has_conflict demoState 1 11 12 none none = true ↔
      ((∃ c ∈ demoState.classes, c.trainer_id = 1 ∧ (11 : Int) < c.end_time ∧
          c.start_time < 12 ∧ (none : Option Nat) ≠ some c.id) ∨
        ∃ p ∈ demoState.sessions, p.trainer_id = 1 ∧ (11 : Int) < p.end_time ∧
          p.start_time < 12 ∧ (none : Option Nat) ≠ some p.id)) ∧
    (room_has_conflict demoState 1 11 12 none none = true ↔
      ((∃ c ∈ demoState.classes, c.room_id = 1 ∧ (11 : Int) < c.end_time ∧
          c.start_time < 12 ∧ (none : Option Nat) ≠ some c.id) ∨
        ∃ p ∈ demoState.sessions, p.room_id = 1 ∧ (11 : Int) < p.end_time ∧
          p.start_time < 12 ∧ (none : Option Nat) ≠ some p.id)) :=
  conflict_check_iff demoState 1 11 12 none none
    (fun k hk => by cases hk) (fun k hk => by cases hk)

/-- Claim C2: the before-insert guard recomputes the count for the target
class and aborts with a distinguishable error when the class does not exist
or the count has reached `max_capacity`; a successful insert therefore
preserves the invariant that no class exceeds its capacity.  Class ids are
assumed unique (primary key). -/
theorem class_capacity_guard (st : DBState) (reg : ClassRegistration)
    (hids : (st.classes.map (fun c => c.id)).Nodup)
    (hInv : capacityInvariant st) :
    (findClass st reg.class_id = none →
      insertRegistration st reg = .error .classNotExists) ∧
    (∀ c, findClass st reg.class_id = some c →
      c.max_capacity ≤ regCount st.registrations reg.class_id →
      insertRegistration st reg = .error .classFull) ∧
    (∀ st', insertRegistration st reg = .ok st' → capacityInvariant st') := by
  refine ⟨?_, ?_, ?_⟩
  · intro hnone
    simp [insertRegistration, check_class_capacity, hnone]
  · intro c hc hge
    have hge2 : regCount st.registrations reg.class_id ≥ c.max_capacity := hge
    simp [insertRegistration, check_class_capacity, hc, hge2]
  · intro st' hok
    cases hcc : check_class_capacity st reg.class_id with
    | error err =>
        rw [insertRegistration, hcc] at hok
        cases hok
    | ok u =>
        rw [insertRegistration, hcc] at hok
        cases hfc : findClass st reg.class_id with
        | none =>
            rw [check_class_capacity, hfc] at hcc
            cases hcc
        | some c0 =>
            rw [check_class_capacity, hfc] at hcc
            dsimp only at hcc
            by_cases hge : regCount st.registrations reg.class_id ≥ c0.max_capacity
            · rw [if_pos hge] at hcc
              cases hcc
            · have hc0mem : c0 ∈ st.classes := List.mem_of_find?_eq_some hfc
              have hc0id : c0.id = reg.class_id := by
                have := List.find?_some hfc
                simpa using this
              cases hok
              unfold capacityInvariant
              intro c hcmem
              show regCount (st.registrations ++ [reg]) c.id ≤ c.max_capacity
              rw [regCount_append]
              by_cases hcid : reg.class_id = c.id
              · have hceq : c = c0 :=
                  List.inj_on_of_nodup_map hids hcmem hc0mem (by omega)
                rw [if_pos hcid, ← hcid, hceq]
                omega
              · rw [if_neg hcid]
                have := hInv c hcmem
                omega

/-- Claim C2 witness: inserting a registration row for a class id that does
not exist in the concrete state is aborted as `classNotExists`. -/
theorem class_capacity_guard_witness :
    insertRegistration demoState ⟨1, 1, 99, 0⟩ = .error .classNotExists :=
  (class_capacity_guard demoState ⟨1, 1, 99, 0⟩ (by decide)
    (by unfold capacityInvariant; decide)).1 rfl

/-- Claim C3: for an existing member, a goal proposal with
`target_date ≥ start_date` deactivates every existing goal of the member
and inserts the new goal as active in one step (the returned state carries
both effects together, so no partial application is observable); afterwards
exactly one goal of the member is active and it is the newly created one.
A proposal with `target_date < start_date` is rejected with no write. -/
theorem set_active_goal_spec (st : DBState) (mid gid : Nat) (gt : String)
    (tv sd td : Int) (hm : (findMember st mid).isSome = true) :
    (sd ≤ td →
      set_active_goal st mid gid gt tv sd td = .ok { st with goals :=
        (st.goals.map fun g =>
          if g.member_id == mid then { g with is_active := false } else g)
        ++ [⟨gid, mid, gt, tv, sd, td, true⟩] } ∧
      ∀ st', set_active_goal st mid gid gt tv sd td = .ok st' →
        activeGoals st' mid = [⟨gid, mid, gt, tv, sd, td, true⟩]) ∧
    (td < sd →
      set_active_goal st mid gid gt tv sd td = .error .invalidDateRange) := by
  have hnn : (findMember st mid).isNone = false := by
    cases hfm : findMember st mid <;> simp_all
  refine ⟨fun hle => ⟨?_, ?_⟩, fun hlt => ?_⟩
  · simp [set_active_goal, hnn, not_lt.2 hle]
  · intro st' hok
    rw [set_active_goal] at hok
    rw [if_neg (by simp [hnn])] at hok
    rw [if_neg (by exact not_lt.2 hle)] at hok
    cases hok
    have hnil : (st.goals.map fun g =>
        if g.member_id == mid then { g with is_active := false } else g).filter
          (fun g => g.member_id == mid && g.is_active) = [] := by
      rw [List.filter_eq_nil_iff]
      intro a ha
      rcases List.mem_map.1 ha with ⟨g, hg, rfl⟩
      by_cases hgm : g.member_id = mid
      · simp [hgm]
      · simp [hgm]
    show (_ ++ [(⟨gid, mid, gt, tv, sd, td, true⟩ : FitnessGoal)]).filter _ = _
    rw [List.filter_append, hnil]
    simp
  · simp [set_active_goal, hnn, hlt]

/-- Claim C3 witness: at the concrete state whose member 1 already has one
active goal, the call deactivates it and installs the new goal as the
single active goal. -/
theorem set_active_goal_spec_witness :
    set_active_goal oneGoalState 1 5 "Cut" 70 0 60 =
      .ok { oneGoalState with goals :=
        [⟨1, 1, "Bulk", 80, 0, 30, false⟩, ⟨5, 1, "Cut", 70, 0, 60, true⟩] } ∧
    activeGoals { oneGoalState with goals :=
        [⟨1, 1, "Bulk", 80, 0, 30, false⟩, ⟨5, 1, "Cut", 70, 0, 60, true⟩] } 1 =
      [⟨5, 1, "Cut", 70, 0, 60, true⟩] := by
  have h := (set_active_goal_spec oneGoalState 1 5 "Cut" 70 0 60 (by decide)).1
    (by decide)
  exact ⟨h.1, h.2 _ h.1⟩

/-- Deactivating every goal of a member leaves no row of that member that
passes the active-goal filter. -/
theorem deactivated_filter_nil (goals : List FitnessGoal) (mid : Nat) :
    (goals.map fun g =>
      if g.member_id == mid then { g with is_active := false } else g).filter
        (fun g => g.member_id == mid && g.is_active) = [] := by
  rw [List.filter_eq_nil_iff]
  intro a ha
  rcases List.mem_map.1 ha with ⟨g, hg, rfl⟩
  by_cases hgm : g.member_id = mid
  · simp [hgm]
  · simp [hgm]

/-- Claim C4 counterexample: the seed loader (seed.py lines 99-113) gives a
single member twelve goals that are all `is_active = true`, so the seeded
state violates the at-most-one-active-goal-per-member invariant — the seed
loader does not create goals through the goal-activation lifecycle. -/
theorem seed_goals_break_single_active :
    ¬ atMostOneActivePerMember (seed_goals [demoMember] 0 1) := by
  intro h
  exact absurd (h 1) (by decide)

/-- Claim C4 amended: the goal-activation operation itself preserves the
at-most-one-active-goal invariant (the seed loader does not). -/
theorem set_active_goal_preserves_single_active (st : DBState)
    (mid gid : Nat) (gt : String) (tv sd td : Int) (st' : DBState)
    (hInv : atMostOneActivePerMember st.goals)
    (hok : set_active_goal st mid gid gt tv sd td = .ok st') :
    atMostOneActivePerMember st'.goals := by
  rw [set_active_goal] at hok
  by_cases h1 : (findMember st mid).isNone = true
  · rw [if_pos h1] at hok
    cases hok
  · rw [if_neg h1] at hok
    by_cases h2 : td < sd
    · rw [if_pos h2] at hok
      cases hok
    · rw [if_neg h2] at hok
      cases hok
      unfold atMostOneActivePerMember
      intro mid'
      show (((st.goals.map fun g =>
          if g.member_id == mid then { g with is_active := false } else g)
        ++ [(⟨gid, mid, gt, tv, sd, td, true⟩ : FitnessGoal)]).filter
          (fun (g : FitnessGoal) => g.member_id == mid' && g.is_active)).length ≤ 1
      rw [List.filter_append, List.length_append]
      by_cases hmm : mid' = mid
      · subst hmm
        rw [deactivated_filter_nil]
        simp
      · have hnew : (([⟨gid, mid, gt, tv, sd, td, true⟩] :
            List FitnessGoal).filter
              (fun g => g.member_id == mid' && g.is_active)).length = 0 := by
          have hbe : (mid == mid') = false := by
            simpa using Ne.symm hmm
          simp [List.filter, hbe]
        rw [hnew]
        have hlen : ((st.goals.map fun g =>
            if g.member_id == mid then { g with is_active := false } else g).filter
              (fun g => g.member_id == mid' && g.is_active)).length =
            (st.goals.filter (fun g => g.member_id == mid' && g.is_active)).length := by
          rw [← List.countP_eq_length_filter, ← List.countP_eq_length_filter,
            List.countP_map]
          apply List.countP_congr
          intro g hg
          by_cases hgm : g.member_id = mid
          · simp [Function.comp, hgm, Ne.symm hmm]
          · simp [Function.comp, hgm]
        rw [hlen]
        have := hInv mid'
        omega

/-- Claim C4 amended witness: applying the goal-activation operation to the
concrete one-active-goal state keeps at most one active goal per member. -/
theorem set_active_goal_single_active_witness :
    atMostOneActivePerMember
      ({ oneGoalState with goals :=
        [⟨1, 1, "Bulk", 80, 0, 30, false⟩,
         ⟨5, 1, "Cut", 70, 0, 60, true⟩] } : DBState).goals :=
  set_active_goal_preserves_single_active oneGoalState 1 5 "Cut" 70 0 60 _
    (fun mid => le_trans (List.length_filter_le _ _) (by decide)) rfl

/-- Claim C5 counterexample: with two active goals whose id order disagrees
with their target-date order, the member-search lookup (ordered by
`goal_id DESC` only) and the dashboard view (ordered by
`target_date DESC, goal_id DESC`) resolve different goals. -/
theorem lookup_dashboard_goal_mismatch :
    lookupGoal mismatchState 1 = some goalHigherId ∧
    dashboardGoal mismatchState 1 = some goalLaterDate ∧
    lookupGoal mismatchState 1 ≠ dashboardGoal mismatchState 1 := by
  refine ⟨rfl, rfl, ?_⟩
  decide

/-- Claim C5 amended: the two selections agree whenever all the member's
active goals share one target date (in particular when there is at most one
active goal) and the member's metrics have pairwise distinct `recorded_at`
timestamps; in general they differ, since the lookup orders goals by id
alone and metrics without the id tie-break. -/
theorem lookup_dashboard_agreement (st : DBState) (mid : Nat)
    (hg : ∀ g1 ∈ activeGoals st mid, ∀ g2 ∈ activeGoals st mid,
      g1.target_date = g2.target_date)
    (hm : ∀ m1 ∈ memberMetrics st mid, ∀ m2 ∈ memberMetrics st mid,
      m1.recorded_at = m2.recorded_at → m1 = m2) :
    lookupGoal st mid = dashboardGoal st mid ∧
    lookupMetric st mid = dashboardMetric st mid := by
  constructor
  · unfold lookupGoal dashboardGoal
    apply pickBest_congr
    intro x hx y hy
    have htd : x.target_date = y.target_date := hg x hx y hy
    simp [goalOrderLookup, goalOrderDash, htd]
  · unfold lookupMetric dashboardMetric
    apply pickBest_congr
    intro x hx y hy
    by_cases hrec : x.recorded_at = y.recorded_at
    · have hxy : x = y := hm x hx y hy hrec
      subst hxy
      simp [metricOrderLookup, metricOrderDash]
    · simp [metricOrderLookup, metricOrderDash, hrec]

/-- Claim C5 amended witness: at the concrete state with one active goal
and two metrics with distinct timestamps, the lookup and the dashboard
resolve the same latest-goal/latest-metric pair. -/
theorem lookup_dashboard_agreement_witness :
    lookupGoal agreementState 1 = dashboardGoal agreementState 1 ∧
    lookupMetric agreementState 1 = dashboardMetric agreementState 1 :=
  lookup_dashboard_agreement agreementState 1 (by decide) (by decide)

/-- A successful trigger-guarded insert appends exactly the one proposed
row to the registration table. -/
theorem insertRegistration_ok (st : DBState) (reg : ClassRegistration)
    (st' : DBState) (hok : insertRegistration st reg = .ok st') :
    st'.registrations = st.registrations ++ [reg] := by
  cases hcc : check_class_capacity st reg.class_id with
  | error e =>
      rw [insertRegistration, hcc] at hok
      cases hok
  | ok u =>
      rw [insertRegistration, hcc] at hok
      cases hok
      rfl

/-- Claim C6: when member and class exist, a registration attempt for an
already-registered `(member, class)` pair is rejected as
`alreadyRegistered` (before any insert: the rejected call returns no new
state, so the caller keeps the old table and the count is unchanged), and a
successful call appends exactly one registration row, raising the class
count by one. -/
theorem register_duplicate_spec (st : DBState) (mid cid rid : Nat)
    (now : Int) (hm : (findMember st mid).isSome = true)
    (hc : (findClass st cid).isSome = true) :
    (st.registrations.any
        (fun r => r.member_id == mid && r.class_id == cid) = true →
      register_for_class st mid cid rid now = .error .alreadyRegistered) ∧
    (∀ st', register_for_class st mid cid rid now = .ok st' →
      st'.registrations = st.registrations ++ [⟨rid, mid, cid, now⟩] ∧
      regCount st'.registrations cid = regCount st.registrations cid + 1) := by
  have hmn : (findMember st mid).isNone = false := by
    cases h : findMember st mid <;> simp_all
  have hcn : (findClass st cid).isNone = false := by
    cases h : findClass st cid <;> simp_all
  constructor
  · intro hdup
    simp [register_for_class, hmn, hcn, hdup]
  · intro st' hok
    rw [register_for_class] at hok
    rw [if_neg (by simp [hmn, hcn])] at hok
    by_cases hdup : st.registrations.any
        (fun r => r.member_id == mid && r.class_id == cid) = true
    · rw [if_pos hdup] at hok
      cases hok
    · rw [if_neg hdup] at hok
      have hregs := insertRegistration_ok st _ st' hok
      refine ⟨hregs, ?_⟩
      rw [hregs, regCount_append]
      simp

/-- Claim C6 witness: at the concrete state where member 1 is already
registered in class 1, a second registration call is rejected as
`alreadyRegistered`. -/
theorem register_duplicate_spec_witness :
    register_for_class registeredState 1 1 2 0 = .error .alreadyRegistered :=
  (register_duplicate_spec registeredState 1 1 2 0 (by decide)
    (by decide)).1 (by decide)

/-- Claim C7: a class create or update proposal whose `max_capacity`
exceeds the referenced room's capacity is never committed (no `.ok` state
is reachable, so the table state is unchanged), and when the checks that
the code runs earlier pass, the rejection reason is `capacityExceedsRoom`. -/
theorem capacity_exceeds_room_rejected (st : DBState) (cid class_id : Nat)
    (title : String) (descr new_title new_descr : Option String)
    (tid rid : Nat) (s e : Int) (cap : Nat) (room : Room)
    (hroom : findRoom st rid = some room) (hcap : room.capacity < cap) :
    (∀ st', create_fitness_class st cid title descr tid rid s e cap ≠
      .ok st') ∧
    (∀ st', update_fitness_class st class_id new_title new_descr tid rid s e
      cap ≠ .ok st') ∧
    (s < e → (findTrainer st tid).isSome = true →
      create_fitness_class st cid title descr tid rid s e cap =
        .error .capacityExceedsRoom) ∧
    ((findClass st class_id).isSome = true →
      (findTrainer st tid).isSome = true →
      update_fitness_class st class_id new_title new_descr tid rid s e cap =
        .error .capacityExceedsRoom) := by
  refine ⟨?_, ?_, ?_, ?_⟩
  · intro st' h
    rw [create_fitness_class] at h
    by_cases h1 : e ≤ s
    · rw [if_pos h1] at h
      cases h
    · rw [if_neg h1] at h
      cases ht : findTrainer st tid with
      | none =>
          rw [ht, hroom] at h
          cases h
      | some tr =>
          rw [ht, hroom] at h
          dsimp only at h
          rw [if_pos hcap] at h
          cases h
  · intro st' h
    rw [update_fitness_class] at h
    cases hfc : findClass st class_id with
    | none =>
        rw [hfc] at h
        cases h
    | some fc =>
        rw [hfc] at h
        dsimp only at h
        cases ht : findTrainer st tid with
        | none =>
            rw [ht, hroom] at h
            cases h
        | some tr =>
            rw [ht, hroom] at h
            dsimp only at h
            rw [if_pos hcap] at h
            cases h
  · intro hse htr
    rcases Option.isSome_iff_exists.mp htr with ⟨tr, ht⟩
    rw [create_fitness_class, if_neg (not_le.mpr hse), ht, hroom]
    dsimp only
    rw [if_pos hcap]
  · intro hcl htr
    rcases Option.isSome_iff_exists.mp hcl with ⟨fc, hfc⟩
    rcases Option.isSome_iff_exists.mp htr with ⟨tr, ht⟩
    rw [update_fitness_class, hfc]
    dsimp only
    rw [ht, hroom]
    dsimp only
    rw [if_pos hcap]

/-- Claim C7 witness: creating a class with capacity 10 in the concrete
room of capacity 5 is rejected as `capacityExceedsRoom`. -/
theorem capacity_exceeds_room_witness :
    create_fitness_class demoState 2 "Spin" none 1 1 20 21 10 =
      .error .capacityExceedsRoom :=
  (capacity_exceeds_room_rejected demoState 2 1 "Spin" none none none 1 1
    20 21 10 demoRoom rfl (by decide)).2.2.1 (by decide) (by decide)

/-- Claim C8 counterexample: an update proposal that fails both the window
check (`e ≤ s`) and the room-capacity check is rejected as
`capacityExceedsRoom`, not as `invalidWindow` — so on the update path the
window check is not step (1) of the pipeline. -/
theorem update_pipeline_order_counterexample :
    update_fitness_class demoState 1 none none 1 1 12 5 10 =
      .error .capacityExceedsRoom ∧
    BookError.capacityExceedsRoom ≠ BookError.invalidWindow := by
  constructor
  · rfl
  · decide

/-- Claim C8 amended: the create path applies the checks in the order
window, existence, capacity, trainer conflict, room conflict, and the
PT-session path in the order window, existence, trainer conflict, room
conflict, each reporting the earliest failing step; the class update path
instead checks existence and capacity before the window (order existence,
capacity, window, trainer conflict, room conflict) and reports the
earliest failing step of that reordered pipeline.  Updates re-run every
check against the proposed new values, excluding the updated record from
the conflict checks, and commit the proposed values only when all checks
pass. -/
theorem validation_pipeline_order (st : DBState) (cid class_id : Nat)
    (title : String) (descr new_title new_descr : Option String)
    (sid mid tid rid : Nat) (s e : Int) (cap : Nat) :
    (e ≤ s → create_fitness_class st cid title descr tid rid s e cap =
      .error .invalidWindow) ∧
    (s < e → ((findTrainer st tid).isNone = true ∨
        (findRoom st rid).isNone = true) →
      create_fitness_class st cid title descr tid rid s e cap =
        .error .notFound) ∧
    (∀ tr room, s < e → findTrainer st tid = some tr →
      findRoom st rid = some room → room.capacity < cap →
      create_fitness_class st cid title descr tid rid s e cap =
        .error .capacityExceedsRoom) ∧
    (∀ tr room, s < e → findTrainer st tid = some tr →
      findRoom st rid = some room → cap ≤ room.capacity →
      trainer_has_conflict st tid s e none none = true →
      create_fitness_class st cid title descr tid rid s e cap =
        .error .trainerConflict) ∧
    (∀ tr room, s < e → findTrainer st tid = some tr →
      findRoom st rid = some room → cap ≤ room.capacity →
      trainer_has_conflict st tid s e none none = false →
      room_has_conflict st rid s e none none = true →
      create_fitness_class st cid title descr tid rid s e cap =
        .error .roomConflict) ∧
    (e ≤ s → schedule_pt_session st sid mid tid rid s e =
      .error .invalidWindow) ∧
    (s < e → ((findMember st mid).isNone = true ∨
        (findTrainer st tid).isNone = true ∨
        (findRoom st rid).isNone = true) →
      schedule_pt_session st sid mid tid rid s e = .error .notFound) ∧
    (∀ m tr room, s < e → findMember st mid = some m →
      findTrainer st tid = some tr → findRoom st rid = some room →
      trainer_has_conflict st tid s e none none = true →
      schedule_pt_session st sid mid tid rid s e =
        .error .trainerConflict) ∧
    (∀ m tr room, s < e → findMember st mid = some m →
      findTrainer st tid = some tr → findRoom st rid = some room →
      trainer_has_conflict st tid s e none none = false →
      room_has_conflict st rid s e none none = true →
      schedule_pt_session st sid mid tid rid s e = .error .roomConflict) ∧
    (∀ fc, findClass st class_id = some fc →
      ((findTrainer st tid).isNone = true ∨ (findRoom st rid).isNone = true) →
      update_fitness_class st class_id new_title new_descr tid rid s e cap =
        .error .notFound) ∧
    (∀ fc tr room, findClass st class_id = some fc →
      findTrainer st tid = some tr → findRoom st rid = some room →
      room.capacity < cap →
      update_fitness_class st class_id new_title new_descr tid rid s e cap =
        .error .capacityExceedsRoom) ∧
    (∀ fc tr room, findClass st class_id = some fc →
      findTrainer st tid = some tr → findRoom st rid = some room →
      cap ≤ room.capacity → e ≤ s →
      update_fitness_class st class_id new_title new_descr tid rid s e cap =
        .error .invalidWindow) ∧
    (∀ fc tr room, findClass st class_id = some fc →
      findTrainer st tid = some tr → findRoom st rid = some room →
      cap ≤ room.capacity → s < e →
      trainer_has_conflict st tid s e (some fc.id) none = true →
      update_fitness_class st class_id new_title new_descr tid rid s e cap =
        .error .trainerConflict) ∧
    (∀ fc tr room, findClass st class_id = some fc →
      findTrainer st tid = some tr → findRoom st rid = some room →
      cap ≤ room.capacity → s < e →
      trainer_has_conflict st tid s e (some fc.id) none = false →
      room_has_conflict st rid s e (some fc.id) none = true →
      update_fitness_class st class_id new_title new_descr tid rid s e cap =
        .error .roomConflict) ∧
    (∀ fc tr room, findClass st class_id = some fc →
      findTrainer st tid = some tr → findRoom st rid = some room →
      cap ≤ room.capacity → s < e →
      trainer_has_conflict st tid s e (some fc.id) none = false →
      room_has_conflict st rid s e (some fc.id) none = false →
      update_fitness_class st class_id new_title new_descr tid rid s e cap =
        .ok { st with classes := st.classes.map fun c =>
          if c.id == class_id then
            { c with
              title := new_title.getD c.title
              description :=
                match new_descr with
                | some d => some d
                | none => c.description
              trainer_id := tid
              room_id := rid
              start_time := s
              end_time := e
              max_capacity := cap }
          else c }) := by
  refine ⟨?_, ?_, ?_, ?_, ?_, ?_, ?_, ?_, ?_, ?_, ?_, ?_, ?_, ?_, ?_⟩
  · intro h1
    rw [create_fitness_class, if_pos h1]
  · intro hse hor
    rw [create_fitness_class, if_neg (not_le.mpr hse)]
    rcases hor with hT | hR
    · cases ht : findTrainer st tid with
      | none => rfl
      | some tr =>
          rw [ht] at hT
          simp at hT
    · cases ht : findTrainer st tid with
      | none => rfl
      | some tr =>
          cases hr : findRoom st rid with
          | none => rfl
          | some room =>
              rw [hr] at hR
              simp at hR
  · intro tr room hse htr hrm hcap
    simp [create_fitness_class, not_le.mpr hse, htr, hrm, hcap]
  · intro tr room hse htr hrm hcaple htc
    simp [create_fitness_class, not_le.mpr hse, htr, hrm,
      not_lt.mpr hcaple, htc]
  · intro tr room hse htr hrm hcaple htc hrc
    simp [create_fitness_class, not_le.mpr hse, htr, hrm,
      not_lt.mpr hcaple, htc, hrc]
  · intro h1
    rw [schedule_pt_session, if_pos h1]
  · intro hse hor
    rw [schedule_pt_session, if_neg (not_le.mpr hse)]
    rcases hor with hM | hT | hR
    · rw [if_pos (by simp [hM])]
    · rw [if_pos (by simp [hT])]
    · rw [if_pos (by simp [hR])]
  · intro m tr room hse hm htr hrm htc
    simp [schedule_pt_session, not_le.mpr hse, hm, htr, hrm, htc]
  · intro m tr room hse hm htr hrm htc hrc
    simp [schedule_pt_session, not_le.mpr hse, hm, htr, hrm, htc, hrc]
  · intro fc hfc hor
    rw [update_fitness_class, hfc]
    dsimp only
    rcases hor with hT | hR
    · cases ht : findTrainer st tid with
      | none => rfl
      | some tr =>
          rw [ht] at hT
          simp at hT
    · cases ht : findTrainer st tid with
      | none => rfl
      | some tr =>
          cases hr : findRoom st rid with
          | none => rfl
          | some room =>
              rw [hr] at hR
              simp at hR
  · intro fc tr room hfc htr hrm hcap
    simp [update_fitness_class, hfc, htr, hrm, hcap]
  · intro fc tr room hfc htr hrm hcaple hwin
    simp [update_fitness_class, hfc, htr, hrm, not_lt.mpr hcaple, hwin]
  · intro fc tr room hfc htr hrm hcaple hse htc
    simp [update_fitness_class, hfc, htr, hrm, not_lt.mpr hcaple,
      not_le.mpr hse, htc]
  · intro fc tr room hfc htr hrm hcaple hse htc hrc
    simp [update_fitness_class, hfc, htr, hrm, not_lt.mpr hcaple,
      not_le.mpr hse, htc, hrc]
  · intro fc tr room hfc htr hrm hcaple hse htc hrc
    simp [update_fitness_class, hfc, htr, hrm, not_lt.mpr hcaple,
      not_le.mpr hse, htc, hrc]

/-- Claim C8 amended witness: on the concrete state, an update naming an
unknown trainer and an invalid window is rejected as `notFound` — the
existence check runs before the window check on the update path. -/
theorem validation_pipeline_order_witness :
    update_fitness_class demoState 1 none none 99 1 12 5 3 =
      .error .notFound :=
  (validation_pipeline_order demoState 2 1 "T" none none none 7 1 99 1 12 5
    3).2.2.2.2.2.2.2.2.2.1 demoClass rfl (Or.inl rfl)

/-- Claim C9: a member that exists but has no goal rows and no metric rows
still gets a dashboard row (the view left-joins), with every goal field and
every metric field absent rather than an error. -/
theorem dashboard_empty_member (st : DBState) (mid : Nat) (m : Member)
    (hm : findMember st mid = some m)
    (hg : ∀ g ∈ st.goals, g.member_id ≠ mid)
    (hx : ∀ x ∈ st.metrics, x.member_id ≠ mid) :
    member_dashboard_view st mid = some
      { member_id := m.id
        full_name := m.full_name
        email := m.email
        phone := m.phone
        goal_type := none
        target_value := none
        target_date := none
        latest_metric_at := none
        weight_kg := none
        heart_rate_bpm := none
        body_fat_percent := none } := by
  have hgoals : activeGoals st mid = [] := by
    rw [activeGoals, List.filter_eq_nil_iff]
    intro g hgm
    simp [hg g hgm]
  have hmet : memberMetrics st mid = [] := by
    rw [memberMetrics, List.filter_eq_nil_iff]
    intro x hxm
    simp [hx x hxm]
  simp [member_dashboard_view, hm, dashboardGoal, dashboardMetric, hgoals,
    hmet, pickBest]

/-- Claim C9 witness: the concrete member with no goals and no metrics gets
a dashboard row whose goal and metric fields are all `none`. -/
theorem dashboard_empty_member_witness :
    member_dashboard_view demoState 1 = some
      { member_id := 1
        full_name := "Alice Fit"
        email := "alice@club.test"
        phone := none
        goal_type := none
        target_value := none
        target_date := none
        latest_metric_at := none
        weight_kg := none
        heart_rate_bpm := none
        body_fat_percent := none } :=
  dashboard_empty_member demoState 1 demoMember rfl
    (by decide) (by decide)

/-- Claim C10: adding a trainer availability slot succeeds iff the window
is non-empty (`s < e`), the trainer exists, and the slot does not overlap
(half-open: `s < existing.end` and `existing.start < e`) any existing
availability slot of the same trainer; merely touching slots are allowed
(their overlap test is false).  Existing class or PT-session bookings are
never consulted: replacing those two tables changes nothing about the
outcome. -/
theorem availability_check_spec (st : DBState) (aid tid : Nat) (s e : Int) :
    ((∃ st', set_trainer_availability st aid tid s e = .ok st') ↔
      (s < e ∧ (findTrainer st tid).isSome = true ∧
        ∀ a ∈ st.availability, a.trainer_id = tid →
          ¬(s < a.end_time ∧ a.start_time < e))) ∧
    (∀ cls ses,
      set_trainer_availability { st with classes := cls, sessions := ses }
          aid tid s e =
        (set_trainer_availability st aid tid s e).map
          (fun st' => { st' with classes := cls, sessions := ses })) := by
  constructor
  · constructor
    · rintro ⟨st', hok⟩
      rw [set_trainer_availability] at hok
      by_cases h1 : e ≤ s
      · rw [if_pos h1] at hok
        cases hok
      · rw [if_neg h1] at hok
        by_cases h2 : (findTrainer st tid).isNone = true
        · rw [if_pos (by simp [h2])] at hok
          cases hok
        · rw [if_neg (by simp [h2])] at hok
          by_cases h3 : (st.availability.any fun a =>
              a.trainer_id == tid && decide (a.start_time < e)
                && decide (a.end_time > s)) = true
          · rw [if_pos h3] at hok
            cases hok
          · refine ⟨not_le.mp h1, ?_, ?_⟩
            · cases hft : findTrainer st tid <;> simp_all
            · intro a ha hat hcontra
              apply h3
              rw [List.any_eq_true]
              exact ⟨a, ha, by simp [hat, hcontra.1, hcontra.2]⟩
    · rintro ⟨hse, hsome, hnov⟩
      rw [set_trainer_availability]
      rw [if_neg (not_le.mpr hse)]
      have hnn : (findTrainer st tid).isNone = false := by
        cases hft : findTrainer st tid <;> simp_all
      rw [if_neg (by simp [hnn])]
      have hany : (st.availability.any fun a =>
          a.trainer_id == tid && decide (a.start_time < e)
            && decide (a.end_time > s)) = false := by
        by_contra hcon
        have htrue : (st.availability.any fun a =>
            a.trainer_id == tid && decide (a.start_time < e)
              && decide (a.end_time > s)) = true := by
          cases hb : (st.availability.any fun a =>
              a.trainer_id == tid && decide (a.start_time < e)
                && decide (a.end_time > s)) <;> simp_all
        rcases List.any_eq_true.mp htrue with ⟨a, ha, hpa⟩
        simp only [Bool.and_eq_true, decide_eq_true_eq, beq_iff_eq] at hpa
        exact hnov a ha hpa.1.1 ⟨hpa.2, hpa.1.2⟩
      rw [if_neg (by simp [hany])]
      exact ⟨_, rfl⟩
  · intro cls ses
    obtain ⟨mem, trs, rms, cls0, ses0, regs, gls, mts, avl⟩ := st
    simp only [set_trainer_availability, findTrainer]
    split_ifs <;> rfl

/-- Claim C10 witness: the success characterization at the concrete state
(one trainer, no availability rows) and the proposed window `[0, 10)`. -/
theorem availability_check_spec_witness :
    (∃ st', set_trainer_availability demoState 1 1 0 10 = .ok st') ↔
      ((0 : Int) < 10 ∧ (findTrainer demoState 1).isSome = true ∧
        ∀ a ∈ demoState.availability, a.trainer_id = 1 →
          ¬((0 : Int) < a.end_time ∧ a.start_time < 10)) :=
  (availability_check_spec demoState 1 1 0 10).1

end Club
